import Mathlib

/-!
# Verification of the market-making trader core

A shallow embedding, over exact rationals, of the per-agent decision and
reconciliation logic of `src/trading/core/trader.py` and the supervisor risk
logic of `src/trading/core/manager.py`.

Conventions of the embedding:
* Python floats are modelled as `ℚ`.  The claims treated here are about
  branch decisions and exact bookkeeping formulas; the concrete inputs used
  in counterexamples and witnesses are chosen so that the float and rational
  evaluations take the same branches.
* Python truthiness of a float (`0.0` is falsey) is modelled by `orFloat`,
  and truthiness of an optional order-id string by `idTruthy`.
* A Python function that returns early without placing an order, or that
  raises (e.g. division by a zero price, which `step` catches), is modelled
  as returning `none`.
* The exchange is a parameter: order-status lookups are a function
  `String → Option OrderStatusD` (`none` = the status call failed and the
  exception was caught and logged).
-/

namespace Arbitrage

/-- Constant `PRICE_UPDATE_THRESHOLD = 0.0001` from `trader.py`. -/
def PRICE_UPDATE_THRESHOLD : ℚ := 1 / 10000

/-- Constant `MIN_ORDER_SIZE = 5.0` from `trader.py` (default market minimum). -/
def MIN_ORDER_SIZE : ℚ := 5

/-- Python `x or d` on an optional float: `None` and `0.0` are falsey. -/
def orFloat (o : Option ℚ) (d : ℚ) : ℚ :=
  match o with
  | some x => if x = 0 then d else x
  | none => d

/-- Python truthiness of an optional order-id string (`None` and `""` falsey). -/
def idTruthy (o : Option String) : Bool :=
  match o with
  | some s => decide (s ≠ "")
  | none => false

/-- The per-trader configuration fields used by the core logic
(`TraderConfig` in `config.py`); `min_gap` and `price_improvement` are in
cents, `budget` in dollars. -/
structure TraderCfg where
  budget : ℚ
  min_gap : ℚ
  price_improvement : ℚ
  deriving Repr, DecidableEq

/-- A fill record handed to the store by `Trader._save_fill`. -/
structure FillRec where
  side : String
  price : ℚ
  size : ℚ
  order_id : String
  pnl : Option ℚ
  deriving Repr, DecidableEq

/-- State `TraderState` from `trader.py` (plus the `Trader._avg_cost_basis`
attribute, kept on the `Trader` object in the source, and the list of fill
records emitted to the store, which the source sends on a background
thread). -/
structure TState where
  current_position : ℚ := 0
  total_pnl : ℚ := 0
  total_trades : ℕ := 0
  last_best_bid : Option ℚ := none
  last_best_ask : Option ℚ := none
  last_spread : Option ℚ := none
  min_order_size : Option ℚ := none
  active_buy_order_id : Option String := none
  active_buy_order_price : Option ℚ := none
  active_buy_order_size : Option ℚ := none
  active_sell_order_id : Option String := none
  active_sell_order_price : Option ℚ := none
  active_sell_order_size : Option ℚ := none
  avg_cost_basis : Option ℚ := none
  emitted : List FillRec := []
  deriving Repr, DecidableEq

/-- Model of `Trader._update_market_state`: store the latest prices and the spread
`best_ask - best_bid`; update the market minimum order size if reported. -/
def update_market_state (st : TState) (best_bid best_ask : ℚ)
    (mosz : Option ℚ) : TState :=
  let st1 := { st with
    last_best_bid := some best_bid,
    last_best_ask := some best_ask,
    last_spread := some (best_ask - best_bid) }
  match mosz with
  | some m => { st1 with min_order_size := some m }
  | none => st1

/-- Model of `Trader._register_order` for the BUY side. -/
def register_buy (st : TState) (oid : String) (price size : ℚ) : TState :=
  { st with
    active_buy_order_id := some oid,
    active_buy_order_price := some price,
    active_buy_order_size := some size }

/-- Model of `Trader._register_order` for the SELL side. -/
def register_sell (st : TState) (oid : String) (price size : ℚ) : TState :=
  { st with
    active_sell_order_id := some oid,
    active_sell_order_price := some price,
    active_sell_order_size := some size }

/-- Model of `Trader._unregister_order("BUY")`. -/
def unregister_buy (st : TState) : TState :=
  { st with
    active_buy_order_id := none,
    active_buy_order_price := none,
    active_buy_order_size := none }

/-- Model of `Trader._unregister_order("SELL")`. -/
def unregister_sell (st : TState) : TState :=
  { st with
    active_sell_order_id := none,
    active_sell_order_price := none,
    active_sell_order_size := none }

/-- Model of `Trader._try_place_buy_order`: returns `some (price, size)` when a BUY
order is submitted, `none` when the placement is skipped.  Faithful to the
source, including the falsey-spread check (`not self.state.last_spread`),
the 0.999 safety-margin branch of check 5, and the final budget clamp. -/
def try_place_buy_order (cfg : TraderCfg) (st : TState)
    (best_bid : ℚ) : Option (ℚ × ℚ) :=
  let min_gap_decimal := cfg.min_gap / 100
  match st.last_spread with
  | none => none
  | some spread =>
    if spread = 0 ∨ spread < min_gap_decimal then none
    else
      let capital_used := |st.current_position * orFloat st.last_best_bid best_bid|
      let available_budget := cfg.budget - capital_used
      if available_budget ≤ 0 then none
      else
        let buy_price := best_bid + cfg.price_improvement / 100
        let order_size0 := available_budget / buy_price
        if order_size0 ≤ 0 then none
        else
          let after_check5 : Option ℚ :=
            if order_size0 * buy_price > available_budget then
              let s1 := available_budget * (999 / 1000) / buy_price
              if s1 * buy_price > available_budget then none else some s1
            else some order_size0
          match after_check5 with
          | none => none
          | some size1 =>
            let mosz := orFloat st.min_order_size MIN_ORDER_SIZE
            if size1 < mosz then none
            else
              let size2 :=
                if size1 * buy_price > available_budget then
                  available_budget / buy_price
                else size1
              some (buy_price, size2)

/-- The shares locked by an active SELL order, subtracted from the position
by `Trader._try_place_sell_order` (Python truthiness: an empty id or a zero
or missing size locks nothing). -/
def locked_sell_size (st : TState) : ℚ :=
  if idTruthy st.active_sell_order_id then
    match st.active_sell_order_size with
    | some z => if z = 0 then 0 else z
    | none => 0
  else 0

/-- The position re-sync that `Trader._try_place_sell_order` performs when
the tracked position is non-positive: take the API value when it is positive
and differs from the tracked value by more than 0.01. -/
def sell_synced_position (pos : ℚ) (apiPos : Option ℚ) : ℚ :=
  if pos ≤ 0 then
    match apiPos with
    | some a => if 0 < a ∧ |a - pos| > 1 / 100 then a else pos
    | none => pos
  else pos

/-- Model of `Trader._try_place_sell_order`: returns `some (price, size)` when a SELL
order is submitted.  `apiPos` is the exchange position used by the pre-sell
re-sync (`none` = the call failed). -/
def try_place_sell_order (cfg : TraderCfg) (st : TState)
    (apiPos : Option ℚ) (best_ask : ℚ) : Option (ℚ × ℚ) :=
  let pos := sell_synced_position st.current_position apiPos
  if pos ≤ 0 then none
  else
    let sell_price := best_ask - cfg.price_improvement / 100
    let available_position := pos - locked_sell_size st
    if available_position ≤ 0 then none
    else
      let safety_buffer := max (1 / 10) (available_position * (1 / 100))
      let order_size := max 0 (available_position - safety_buffer)
      if order_size ≤ 0 then none
      else
        let mosz := orFloat st.min_order_size MIN_ORDER_SIZE
        if order_size < mosz then none
        else some (sell_price, order_size)

/-- The BUY-side cancellation decision of
`Trader._check_and_cancel_invalid_orders` (evaluated when an active BUY
order exists): cancel when the current spread is unknown or below `min_gap`,
or when the available budget is below the minimum order value. -/
def should_cancel_buy (cfg : TraderCfg) (st : TState)
    (best_bid best_ask : ℚ) : Bool :=
  let current_spread : Option ℚ :=
    if best_bid ≠ 0 ∧ best_ask ≠ 0 then some (best_ask - best_bid) else none
  match current_spread with
  | none => true
  | some c =>
    if c < cfg.min_gap / 100 then true
    else
      let available_budget :=
        cfg.budget - |st.current_position * orFloat st.last_best_bid best_bid|
      let mosz := orFloat st.min_order_size MIN_ORDER_SIZE
      let min_order_value_buy := if best_bid ≠ 0 then mosz * best_bid else 0
      decide (available_budget < min_order_value_buy)

/-- The SELL-side cancellation decision of
`Trader._check_and_cancel_invalid_orders`: cancel when the position is
non-positive or, after the 0.1-share buffer, below the minimum order size. -/
def should_cancel_sell (st : TState) : Bool :=
  let mosz := orFloat st.min_order_size MIN_ORDER_SIZE
  let available_to_sell := max 0 (st.current_position - 1 / 10)
  if st.current_position ≤ 0 then true
  else decide (available_to_sell < mosz)

/-- The BUY target price of `Trader._update_orders` and
`_try_place_buy_order`: `best_bid + price_improvement` (improvement
converted from cents). -/
def target_buy_price (cfg : TraderCfg) (best_bid : ℚ) : ℚ :=
  best_bid + cfg.price_improvement / 100

/-- The SELL target price: `best_ask - price_improvement`. -/
def target_sell_price (cfg : TraderCfg) (best_ask : ℚ) : ℚ :=
  best_ask - cfg.price_improvement / 100

/-- The BUY half of `Trader._update_orders`: `some p` when the resting BUY
order is replaced at price `p`, `none` when it is left alone.  `sbb` is the
second-best bid, `bbs` the best-bid size. -/
def update_buy_decision (cfg : TraderCfg) (st : TState) (best_bid : ℚ)
    (sbb bbs : Option ℚ) : Option ℚ :=
  if idTruthy st.active_buy_order_id then
    match st.active_buy_order_price with
    | none => none
    | some our =>
      let imp := cfg.price_improvement / 100
      let target := best_bid + imp
      let price_diff := |our - best_bid|
      let is_best : Prop :=
        price_diff < PRICE_UPDATE_THRESHOLD ∨
          (our ≥ best_bid ∧ price_diff ≤ imp + PRICE_UPDATE_THRESHOLD)
      if is_best then
        let oursz := st.active_buy_order_size.getD 0
        let sole : Bool :=
          match bbs with
          | some bs => decide (|bs - oursz| < 1 / 100)
          | none => false
        match sbb, sole with
        | some s2, true =>
          let gap_target := s2 + imp
          if |gap_target - our| > PRICE_UPDATE_THRESHOLD ∧ gap_target ≥ s2 then
            some gap_target
          else none
        | none, _ =>
          if |our - best_bid| > PRICE_UPDATE_THRESHOLD then
            if |target - our| > PRICE_UPDATE_THRESHOLD then some target else none
          else none
        | some _, false =>
          if |our - best_bid| > PRICE_UPDATE_THRESHOLD then
            if |target - our| > PRICE_UPDATE_THRESHOLD then some target else none
          else none
      else
        if |our - target| > PRICE_UPDATE_THRESHOLD then some target else none
  else none

/-- The SELL half of `Trader._update_orders`: `some p` when the resting SELL
order is replaced at price `p`.  `sba` is the second-best ask, `bas` the
best-ask size. -/
def update_sell_decision (cfg : TraderCfg) (st : TState) (best_ask : ℚ)
    (sba bas : Option ℚ) : Option ℚ :=
  if idTruthy st.active_sell_order_id then
    match st.active_sell_order_price with
    | none => none
    | some our =>
      let imp := cfg.price_improvement / 100
      let target := best_ask - imp
      let price_diff := |our - best_ask|
      let is_best : Prop :=
        price_diff < PRICE_UPDATE_THRESHOLD ∨
          (our ≤ best_ask ∧ price_diff ≤ imp + PRICE_UPDATE_THRESHOLD)
      if is_best then
        let oursz := st.active_sell_order_size.getD 0
        let sole : Bool :=
          match bas with
          | some bs => decide (|bs - oursz| < 1 / 100)
          | none => false
        match sba, sole with
        | some s2, true =>
          let gap_target := s2 - imp
          if |gap_target - our| > PRICE_UPDATE_THRESHOLD ∧ gap_target ≤ s2 then
            some gap_target
          else none
        | none, _ =>
          if |our - best_ask| > PRICE_UPDATE_THRESHOLD then
            if |target - our| > PRICE_UPDATE_THRESHOLD then some target else none
          else none
        | some _, false =>
          if |our - best_ask| > PRICE_UPDATE_THRESHOLD then
            if |target - our| > PRICE_UPDATE_THRESHOLD then some target else none
          else none
      else
        if |our - target| > PRICE_UPDATE_THRESHOLD then some target else none
  else none

/-- The BUY sizing of `Trader._replace_order`: `available_budget / best_bid`
(note: `best_bid`, not the submit price), or `none` when no budget is left. -/
def replace_buy_size (cfg : TraderCfg) (st : TState) (best_bid : ℚ) :
    Option ℚ :=
  let capital_used := |st.current_position * orFloat st.last_best_bid best_bid|
  let available_budget := cfg.budget - capital_used
  if available_budget ≤ 0 then none else some (available_budget / best_bid)

/-- The SELL sizing of `Trader._replace_order`: the position minus the
0.1-share safety buffer, or `none` when the position is non-positive, the
buffered size is non-positive, or it is below the minimum order size. -/
def replace_sell_size (st : TState) : Option ℚ :=
  if st.current_position ≤ 0 then none
  else
    let order_size := max 0 (st.current_position - 1 / 10)
    if order_size ≤ 0 then none
    else if order_size < orFloat st.min_order_size MIN_ORDER_SIZE then none
    else some order_size

/-- State effect of `Trader._replace_order` for a BUY: the old order is
unregistered first; the new order is registered only when a positive size
was computed (otherwise the replacement silently leaves no resting order). -/
def apply_replace_buy (cfg : TraderCfg) (st : TState) (new_id : String)
    (new_price best_bid : ℚ) : TState :=
  let st1 := unregister_buy st
  match replace_buy_size cfg st1 best_bid with
  | none => st1
  | some sz => if sz > 0 then register_buy st1 new_id new_price sz else st1

/-- State effect of `Trader._replace_order` for a SELL. -/
def apply_replace_sell (st : TState) (new_id : String) (new_price : ℚ) :
    TState :=
  let st1 := unregister_sell st
  match replace_sell_size st1 with
  | none => st1
  | some sz => if sz > 0 then register_sell st1 new_id new_price sz else st1

/-- The BUY half of `Trader._update_orders` as a state transformer. -/
def update_orders_buy (cfg : TraderCfg) (st : TState) (best_bid : ℚ)
    (sbb bbs : Option ℚ) (new_id : String) : TState :=
  match update_buy_decision cfg st best_bid sbb bbs with
  | some p => apply_replace_buy cfg st new_id p best_bid
  | none => st

/-- The SELL half of `Trader._update_orders` as a state transformer. -/
def update_orders_sell (cfg : TraderCfg) (st : TState) (best_ask : ℚ)
    (sba bas : Option ℚ) (new_id : String) : TState :=
  match update_sell_decision cfg st best_ask sba bas with
  | some p => apply_replace_sell st new_id p
  | none => st

/-- The order-status payload as read by `Trader._extract_filled_size` and
`Trader._check_order_status`.  `filledField` is the value of the
`filled_size`/`filledSize`/`filled`/`filledAmount`/`filled_amount` chain
after Python's falsey-`or` collapse and `float(...)` parse (`none` when every
alias is absent/falsey-and-not-last/unparsable); `remainingField` likewise
for the `remaining_*` aliases. -/
structure OrderStatusD where
  status : String
  filledField : Option ℚ
  remainingField : Option ℚ
  deriving Repr, DecidableEq

/-- Uppercasing used by the source's `status.get("status", "").upper()`. -/
def strUpper (s : String) : String := ⟨s.data.map Char.toUpper⟩

/-- Model of `Trader._extract_filled_size`: the filled-size field, else
`original - remaining` when positive, else assume full fill when the status
is FILLED and the original size is known, else 0. -/
def extract_filled_size (stat : OrderStatusD) (original_size : Option ℚ) :
    ℚ :=
  match stat.filledField with
  | some v => v
  | none =>
    let viaRemaining : Option ℚ :=
      match original_size, stat.remainingField with
      | some osz, some rem => if osz - rem > 0 then some (osz - rem) else none
      | _, _ => none
    match viaRemaining with
    | some x => x
    | none =>
      match original_size with
      | some osz => if strUpper stat.status = "FILLED" then osz else 0
      | none => 0

/-- The BUY half of `Trader._check_order_status`.  `f` maps an order id to
the exchange's status report (`none` = the status call raised and was
caught). -/
def check_buy_order (f : String → Option OrderStatusD) (st : TState) :
    TState :=
  match st.active_buy_order_id with
  | none => st
  | some oid =>
    if oid = "" then st
    else
      match f oid with
      | none => st
      | some stat =>
        let ost := strUpper stat.status
        if ost = "FILLED" then
          let filled_size := extract_filled_size stat st.active_buy_order_size
          let fill_price := st.active_buy_order_price.getD 0
          let st1 :=
            if filled_size > 0 then
              let basis' :=
                match st.avg_cost_basis with
                | none => fill_price
                | some b =>
                  (b * st.current_position + fill_price * filled_size) /
                    (st.current_position + filled_size)
              { st with
                avg_cost_basis := some basis',
                current_position := st.current_position + filled_size,
                emitted := st.emitted ++
                  [⟨"BUY", fill_price, filled_size, oid, none⟩] }
            else st
          let st2 := unregister_buy st1
          { st2 with total_trades := st2.total_trades + 1 }
        else if ost = "CANCELLED" ∨ ost = "REJECTED" then unregister_buy st
        else st

/-- The SELL half of `Trader._check_order_status`. -/
def check_sell_order (f : String → Option OrderStatusD) (st : TState) :
    TState :=
  match st.active_sell_order_id with
  | none => st
  | some oid =>
    if oid = "" then st
    else
      match f oid with
      | none => st
      | some stat =>
        let ost := strUpper stat.status
        if ost = "FILLED" then
          let filled_size := extract_filled_size stat st.active_sell_order_size
          let fill_price := st.active_sell_order_price.getD 0
          let st1 :=
            if filled_size > 0 then
              let pnlOpt :=
                match st.avg_cost_basis with
                | some b => some ((fill_price - b) * filled_size)
                | none => none
              let pnl' :=
                match st.avg_cost_basis with
                | some b => st.total_pnl + (fill_price - b) * filled_size
                | none => st.total_pnl
              let pos' := st.current_position - filled_size
              let basis' := if pos' ≤ 0 then none else st.avg_cost_basis
              { st with
                total_pnl := pnl',
                current_position := pos',
                avg_cost_basis := basis',
                emitted := st.emitted ++
                  [⟨"SELL", fill_price, filled_size, oid, pnlOpt⟩] }
            else st
          let st2 := unregister_sell st1
          { st2 with total_trades := st2.total_trades + 1 }
        else if ost = "CANCELLED" ∨ ost = "REJECTED" then unregister_sell st
        else st

/-- Model of `Trader._check_order_status`: the BUY order is checked first, then the
SELL order. -/
def check_order_status (f : String → Option OrderStatusD) (st : TState) :
    TState :=
  check_sell_order f (check_buy_order f st)

/-- The manager-configuration fields read by `TraderManager._monitor_risk`
(`ManagerConfig` in `config.py`). -/
structure ManagerCfg where
  max_total_exposure : ℚ
  max_total_pnl_loss : ℚ
  enable_emergency_shutdown : Bool
  deriving Repr, DecidableEq

/-- The per-trader fields of `Trader.get_status` read by the risk monitor:
`position` (shares), `last_best_bid` (used by `position_value`), `total_pnl`. -/
structure TraderRisk where
  position : ℚ
  last_best_bid : Option ℚ
  total_pnl : ℚ
  deriving Repr, DecidableEq

/-- Model of `TraderManager._monitor_risk`: sums `abs(status["position"])` (shares)
and `status["total_pnl"]`; returns `false` (stop the loop) on a breach only
when emergency shutdown is enabled. -/
def monitor_risk (cfg : ManagerCfg) (traders : List TraderRisk) : Bool :=
  let total_exposure := (traders.map fun t => |t.position|).sum
  let total_pnl := (traders.map fun t => t.total_pnl).sum
  if total_exposure > cfg.max_total_exposure ∧ cfg.enable_emergency_shutdown
  then false
  else if total_pnl < cfg.max_total_pnl_loss ∧ cfg.enable_emergency_shutdown
  then false
  else true

/-- The spec's wording of the risk-breach condition ("sum absolute position
value and cumulative P&L"), stated for comparison with `monitor_risk`:
position value is `abs(position * last_best_bid)` as computed by
`Trader.get_status`. -/
def spec_risk_terminates (cfg : ManagerCfg) (traders : List TraderRisk) :
    Bool :=
  let total_value := (traders.map fun t => |t.position * orFloat t.last_best_bid 0|).sum
  let total_pnl := (traders.map fun t => t.total_pnl).sum
  decide ((total_value > cfg.max_total_exposure ∨
           total_pnl < cfg.max_total_pnl_loss) ∧
          cfg.enable_emergency_shutdown = true)

/-- The attribute names defined by the `TraderState` dataclass in
`trader.py`. -/
def trader_state_fields : List String :=
  ["current_position", "total_pnl", "total_trades", "last_best_bid",
   "last_best_ask", "last_spread", "min_order_size",
   "active_buy_order_id", "active_buy_order_price", "active_buy_order_size",
   "active_sell_order_id", "active_sell_order_price", "active_sell_order_size"]

/-- The attribute of `trader.state` that `TraderManager.shutdown` iterates
over when cancelling orders (`manager.py` line 464). -/
def shutdown_iterated_field : String := "active_order_ids"

/-- Whether `check_buy_order` will take any action on `st` under the status
lookup `f`: there is a truthy BUY order id whose status call succeeds and
reports FILLED, CANCELLED or REJECTED.  (Any other situation leaves the
state untouched.) -/
def buy_actionable (f : String → Option OrderStatusD) (st : TState) : Bool :=
  match st.active_buy_order_id with
  | none => false
  | some oid =>
    if oid = "" then false
    else
      match f oid with
      | none => false
      | some stat =>
        let ost := strUpper stat.status
        decide (ost = "FILLED" ∨ ost = "CANCELLED" ∨ ost = "REJECTED")

/-- SELL-side analogue of `buy_actionable`. -/
def sell_actionable (f : String → Option OrderStatusD) (st : TState) : Bool :=
  match st.active_sell_order_id with
  | none => false
  | some oid =>
    if oid = "" then false
    else
      match f oid with
      | none => false
      | some stat =>
        let ost := strUpper stat.status
        decide (ost = "FILLED" ∨ ost = "CANCELLED" ∨ ost = "REJECTED")

/-! ## Basic facts about the market-state update -/

lemma update_market_state_last_spread (st : TState) (bb ba : ℚ)
    (mosz : Option ℚ) :
    (update_market_state st bb ba mosz).last_spread = some (ba - bb) := by
  cases mosz <;> rfl

lemma update_market_state_last_best_bid (st : TState) (bb ba : ℚ)
    (mosz : Option ℚ) :
    (update_market_state st bb ba mosz).last_best_bid = some bb := by
  cases mosz <;> rfl

lemma update_market_state_current_position (st : TState) (bb ba : ℚ)
    (mosz : Option ℚ) :
    (update_market_state st bb ba mosz).current_position =
      st.current_position := by
  cases mosz <;> rfl

/-! ## Theorems for the claims -/

/-- C2.  `TraderManager.shutdown` cancels orders by iterating over
`trader.state.active_order_ids`, but the `TraderState` dataclass defines no
such attribute (it tracks `active_buy_order_id` and `active_sell_order_id`),
so the cancellation loop raises `AttributeError` on the first trader instead
of cancelling that trader's resting buy and sell orders. -/
theorem shutdown_iterates_missing_trader_state_field :
    shutdown_iterated_field ∉ trader_state_fields ∧
    "active_buy_order_id" ∈ trader_state_fields ∧
    "active_sell_order_id" ∈ trader_state_fields := by
  refine ⟨?_, ?_, ?_⟩ <;> decide

/-- C3.  `Trader._replace_order` sizes a BUY replacement as
`available_budget / best_bid` but submits it at the target price
`best_bid + price_improvement`: with budget $10, no position,
best_bid 0.50 and a 1¢ improvement, the replacement registers 20 shares at
0.51, costing $10.20, which exceeds the $10 available capacity
(budget minus position value). -/
theorem replace_buy_cost_exceeds_available_budget :
    replace_buy_size ⟨10, 2, 1⟩ { current_position := 0 } (1/2) = some 20 ∧
    (apply_replace_buy ⟨10, 2, 1⟩
        { current_position := 0, active_buy_order_id := some ("b0"),
          active_buy_order_price := some (1/2), active_buy_order_size := some 19 }
        "n1" (target_buy_price ⟨10, 2, 1⟩ (1/2)) (1/2)).active_buy_order_price
      = some (51/100) ∧
    (apply_replace_buy ⟨10, 2, 1⟩
        { current_position := 0, active_buy_order_id := some ("b0"),
          active_buy_order_price := some (1/2), active_buy_order_size := some 19 }
        "n1" (target_buy_price ⟨10, 2, 1⟩ (1/2)) (1/2)).active_buy_order_size
      = some 20 ∧
    target_buy_price ⟨10, 2, 1⟩ (1/2) * 20 >
      (10 : ℚ) - |(0 : ℚ) * (1/2)| := by
  refine ⟨?_, ?_, ?_, ?_⟩ <;>
    norm_num [replace_buy_size, apply_replace_buy, register_buy, unregister_buy,
      target_buy_price, orFloat]

/-- C9 (amended).  `TraderManager._monitor_risk` signals the main loop to
stop exactly when emergency shutdown is enabled and either the summed
absolute position **in shares** exceeds the exposure cap or the summed P&L
is below the floor. -/
theorem monitor_risk_false_iff_share_breach (cfg : ManagerCfg)
    (traders : List TraderRisk) :
    monitor_risk cfg traders = false ↔
      cfg.enable_emergency_shutdown = true ∧
      ((traders.map fun t => |t.position|).sum > cfg.max_total_exposure ∨
       (traders.map fun t => t.total_pnl).sum < cfg.max_total_pnl_loss) := by
  unfold monitor_risk
  simp only []
  constructor
  · intro h
    split_ifs at h with h1 h2
    · exact ⟨h1.2, Or.inl h1.1⟩
    · exact ⟨h2.2, Or.inr h2.1⟩
  · rintro ⟨hen, hbr⟩
    split_ifs with h1 h2
    · rfl
    · rfl
    · cases hbr with
      | inl hb => exact absurd ⟨hb, hen⟩ h1
      | inr hb => exact absurd ⟨hb, hen⟩ h2

/-- C9 (counterexample).  A single trader holding 100 shares quoted at
one cent has position value $1 ≤ cap $50, so by the claim the loop must
not terminate; but `_monitor_risk` sums shares (100 > 50) and stops the
loop: its result is `false` while the spec-worded breach condition
(`spec_risk_terminates`, absolute position value) does not hold. -/
theorem monitor_risk_stops_without_position_value_breach :
    monitor_risk ⟨50, -1000, true⟩ [⟨100, some (1/100), 0⟩] = false ∧
    spec_risk_terminates ⟨50, -1000, true⟩ [⟨100, some (1/100), 0⟩] = false := by
  constructor <;>
    norm_num [monitor_risk, spec_risk_terminates, orFloat]

/-- C1 (amended).  The buy side compares the raw spread
`best_ask - best_bid` (no price-improvement deduction) with `min_gap`:
whenever that spread is below `min_gap` (converted from cents), no buy
order is placed and a resting buy order is cancelled. -/
theorem no_buy_when_raw_spread_below_min_gap (cfg : TraderCfg) (st : TState)
    (best_bid best_ask : ℚ) (mosz : Option ℚ)
    (h : best_ask - best_bid < cfg.min_gap / 100) :
    try_place_buy_order cfg (update_market_state st best_bid best_ask mosz)
        best_bid = none ∧
    should_cancel_buy cfg (update_market_state st best_bid best_ask mosz)
        best_bid best_ask = true := by
  constructor
  · unfold try_place_buy_order
    rw [update_market_state_last_spread]
    simp [h]
  · unfold should_cancel_buy
    by_cases hb : best_bid ≠ 0 ∧ best_ask ≠ 0
    · simp [hb, h]
    · simp [hb]

/-- Witness for C1's amended theorem at best_bid 0.51, best_ask 0.52,
min_gap 2¢ (spread 1¢ < 2¢). -/
theorem no_buy_when_raw_spread_below_min_gap_witness :
    (13/25 : ℚ) - 51/100 < 2 / 100 ∧
    (try_place_buy_order ⟨10, 2, 1⟩
        (update_market_state {} (51/100) (13/25) none) (51/100) = none ∧
     should_cancel_buy ⟨10, 2, 1⟩
        (update_market_state {} (51/100) (13/25) none) (51/100) (13/25) = true) :=
  ⟨by norm_num,
   no_buy_when_raw_spread_below_min_gap ⟨10, 2, 1⟩ {} (51/100) (13/25) none
     (by norm_num)⟩

/-- C1 (counterexample).  At the claim's own example snapshot
(best_bid 0.50, best_ask 0.52, price_improvement 1¢, min_spread 2¢) the
code's raw spread is 2¢, not below `min_gap`, so — contrary to the claim's
"effective spread = 1¢ < 2¢ ⇒ no buy order" — a BUY order *is* placed
(at 0.51 for 10/0.51 shares, with the default $10 budget and flat
position), and a resting buy order is *not* cancelled. -/
theorem example_snapshot_places_buy_despite_claim :
    try_place_buy_order ⟨10, 2, 1⟩
        (update_market_state {} (1/2) (13/25) none) (1/2) =
      some (51/100, 1000/51) ∧
    should_cancel_buy ⟨10, 2, 1⟩
        (update_market_state
          { active_buy_order_id := some ("b0"),
            active_buy_order_price := some (1/2),
            active_buy_order_size := some 10 }
          (1/2) (13/25) none) (1/2) (13/25) = false := by
  constructor <;>
    norm_num [try_place_buy_order, should_cancel_buy, update_market_state,
      orFloat, MIN_ORDER_SIZE]

/-- C4.  Every SELL order the agent submits — by first placement
(`_try_place_sell_order`) or by replacement (`_replace_order`) — has size at
most the current position minus the 0.1-share safety buffer, and is only
submitted when the (re-synced) position is strictly positive: the agent
never initiates a short sale.  The hypothesis says the tracked size of a
resting sell order is never negative (sizes registered by the code are
positive). -/
theorem sell_size_within_position_minus_buffer (cfg : TraderCfg) (st : TState)
    (apiPos : Option ℚ) (best_ask p sz : ℚ)
    (hlock : ∀ z, st.active_sell_order_size = some z → 0 ≤ z) :
    (try_place_sell_order cfg st apiPos best_ask = some (p, sz) →
      0 < sell_synced_position st.current_position apiPos ∧
      sz ≤ sell_synced_position st.current_position apiPos - 1/10) ∧
    (replace_sell_size st = some sz →
      0 < st.current_position ∧ sz ≤ st.current_position - 1/10) := by
  have hL : 0 ≤ locked_sell_size st := by
    unfold locked_sell_size
    split_ifs with hi
    · cases hz : st.active_sell_order_size with
      | none => simp
      | some z =>
        simp only []
        split_ifs with h0
        · exact le_refl 0
        · exact hlock z hz
    · exact le_refl 0
  constructor
  · intro h
    simp only [try_place_sell_order] at h
    split_ifs at h with h1 h2 h3 h4
    push_neg at h1 h2 h3
    rw [Option.some_inj, Prod.mk.injEq] at h
    obtain ⟨-, hsz⟩ := h
    refine ⟨h1, ?_⟩
    set pos := sell_synced_position st.current_position apiPos with hposdef
    set avail := pos - locked_sell_size st with havail
    set buffer := max (1/10 : ℚ) (avail * (1/100)) with hbuffer
    have hpos9 : 0 < avail - buffer := by
      rcases lt_or_le 0 (avail - buffer) with hlt | hle
      · exact hlt
      · exfalso
        have : max (0 : ℚ) (avail - buffer) = 0 := max_eq_left hle
        rw [this] at h3
        exact lt_irrefl 0 h3
    have hmax : max (0 : ℚ) (avail - buffer) = avail - buffer :=
      max_eq_right (le_of_lt hpos9)
    rw [hmax] at hsz
    have hb10 : (1/10 : ℚ) ≤ buffer := le_max_left _ _
    linarith
  · intro h
    simp only [replace_sell_size] at h
    split_ifs at h with h1 h2 h3
    push_neg at h1 h2
    rw [Option.some_inj] at h
    refine ⟨h1, ?_⟩
    have hpos9 : 0 < st.current_position - 1/10 := by
      rcases lt_or_le 0 (st.current_position - 1/10) with hlt | hle
      · exact hlt
      · exfalso
        have : max (0 : ℚ) (st.current_position - 1/10) = 0 := max_eq_left hle
        rw [this] at h2
        exact lt_irrefl 0 h2
    have hmax : max (0 : ℚ) (st.current_position - 1/10) =
        st.current_position - 1/10 := max_eq_right (le_of_lt hpos9)
    rw [hmax] at h
    linarith [h.symm.le]

/-- Witness for C4 at a flat-book example: position 20, no resting orders,
best_ask 0.60, improvement 1¢ — a SELL of 19.8 shares at 0.59 is placed,
and 19.8 ≤ 20 - 0.1. -/
theorem sell_size_within_position_minus_buffer_witness :
    try_place_sell_order ⟨10, 2, 1⟩ { current_position := 20 } none (3/5) =
      some (59/100, 99/5) ∧
    (0 < sell_synced_position (20 : ℚ) none ∧
     (99/5 : ℚ) ≤ sell_synced_position (20 : ℚ) none - 1/10) := by
  have happ : try_place_sell_order ⟨10, 2, 1⟩ { current_position := 20 }
      none (3/5) = some (59/100, 99/5) := by
    norm_num [try_place_sell_order, sell_synced_position, locked_sell_size,
      idTruthy, orFloat, MIN_ORDER_SIZE, max_def]
  have h := (sell_size_within_position_minus_buffer ⟨10, 2, 1⟩
    { current_position := 20 } none (3/5) (59/100) (99/5)
    (by intro z hz; simp at hz)).1 happ
  exact ⟨happ, h⟩

/-- C5 (amended).  When the agent's SELL order sits at best-ask as the sole
occupant (the best-ask size equals the order's size), a second-best ask
exists, and the gap to it exceeds one price-improvement increment *by more
than the 0.0001 price-update threshold*, `_update_orders` replaces the order
at `second_best_ask - price_improvement`. -/
theorem sole_best_ask_moves_to_second_best (cfg : TraderCfg) (st : TState)
    (best_ask s2 oursz : ℚ) (oid : String)
    (hid : st.active_sell_order_id = some oid) (hne : oid ≠ "")
    (hprice : st.active_sell_order_price = some best_ask)
    (hsize : st.active_sell_order_size = some oursz)
    (himp : 0 ≤ cfg.price_improvement)
    (hgap : cfg.price_improvement / 100 + PRICE_UPDATE_THRESHOLD <
      s2 - best_ask) :
    update_sell_decision cfg st best_ask (some s2) (some oursz) =
      some (s2 - cfg.price_improvement / 100) := by
  have hTH : (0 : ℚ) < PRICE_UPDATE_THRESHOLD := by norm_num [PRICE_UPDATE_THRESHOLD]
  unfold update_sell_decision
  rw [hid, hprice, hsize]
  simp only [idTruthy, hne, decide_eq_true_eq, ne_eq, not_false_eq_true,
    decide_True, if_true]
  have hbest : |best_ask - best_ask| < PRICE_UPDATE_THRESHOLD ∨
      (best_ask ≤ best_ask ∧
        |best_ask - best_ask| ≤ cfg.price_improvement / 100 +
          PRICE_UPDATE_THRESHOLD) := by
    left
    simpa using hTH
  rw [if_pos hbest]
  simp only [Option.getD_some]
  have hsole : |oursz - oursz| < (1 : ℚ) / 100 := by simp
  simp only [hsole, decide_True]
  have hcond : |s2 - cfg.price_improvement / 100 - best_ask| >
      PRICE_UPDATE_THRESHOLD ∧
      s2 - cfg.price_improvement / 100 ≤ s2 := by
    constructor
    · rw [abs_of_pos (by linarith)]
      linarith
    · linarith [div_nonneg himp (by norm_num : (0:ℚ) ≤ 100)]
  rw [if_pos hcond]

/-- Witness for C5's amended theorem at the claim's example: sole best ask
at 0.59 with size 20, improvement 1¢, second-best ask 0.65 → the order is
replaced at 0.64. -/
theorem sole_best_ask_moves_to_second_best_witness :
    update_sell_decision ⟨10, 2, 1⟩
      { current_position := 20, active_sell_order_id := some ("s1"),
        active_sell_order_price := some (59/100),
        active_sell_order_size := some 20 }
      (59/100) (some (13/20)) (some 20) = some (16/25) := by
  have h := sole_best_ask_moves_to_second_best ⟨10, 2, 1⟩
    { current_position := 20, active_sell_order_id := some ("s1"),
      active_sell_order_price := some (59/100),
      active_sell_order_size := some 20 }
    (59/100) (13/20) 20 ("s1") rfl (by decide) rfl rfl (by norm_num)
    (by norm_num [PRICE_UPDATE_THRESHOLD])
  rw [h]
  norm_num

/-- C5 (counterexample).  With the agent sole best ask at 0.59 (size 20,
improvement 1¢) and second-best ask 0.60005, the gap 0.01005 exceeds one
price-improvement increment (0.01), so the claim requires a replacement at
0.59005; but the new target differs from the current price by only 0.00005
≤ the 0.0001 threshold, and `_update_orders` leaves the order alone. -/
theorem sole_best_ask_small_gap_not_replaced :
    (1/100 : ℚ) < 12001/20000 - 59/100 ∧
    update_sell_decision ⟨10, 2, 1⟩
      { current_position := 20, active_sell_order_id := some ("s1"),
        active_sell_order_price := some (59/100),
        active_sell_order_size := some 20 }
      (59/100) (some (12001/20000)) (some 20) = none := by
  constructor
  · norm_num
  · norm_num [update_sell_decision, idTruthy, PRICE_UPDATE_THRESHOLD,
      abs_le, lt_abs, abs_lt, le_abs, (show ("s1" : String) ≠ "" from by decide)]

/-- C6 (amended).  A resting order that is already the best price on its
side, with an unmoved target (the second-best-derived target within the
0.0001 threshold of the current price), is left entirely unchanged by
`_update_orders` — in particular its size is never increased ("topped up"),
no matter how large the current position or available capacity is.  Both
sides behave the same way. -/
theorem resting_best_orders_left_unchanged (cfg : TraderCfg) (st : TState) :
    (∀ (oid nid : String) (best_ask s2 oursz : ℚ),
      st.active_sell_order_id = some oid → oid ≠ "" →
      st.active_sell_order_price = some best_ask →
      st.active_sell_order_size = some oursz →
      |s2 - cfg.price_improvement / 100 - best_ask| ≤ PRICE_UPDATE_THRESHOLD →
      update_orders_sell cfg st best_ask (some s2) (some oursz) nid = st) ∧
    (∀ (oid nid : String) (best_bid s2 oursz : ℚ),
      st.active_buy_order_id = some oid → oid ≠ "" →
      st.active_buy_order_price = some best_bid →
      st.active_buy_order_size = some oursz →
      |s2 + cfg.price_improvement / 100 - best_bid| ≤ PRICE_UPDATE_THRESHOLD →
      update_orders_buy cfg st best_bid (some s2) (some oursz) nid = st) := by
  have hTH : (0 : ℚ) < PRICE_UPDATE_THRESHOLD := by norm_num [PRICE_UPDATE_THRESHOLD]
  constructor
  · intro oid nid best_ask s2 oursz hid hne hprice hsize hnear
    unfold update_orders_sell
    have hdec : update_sell_decision cfg st best_ask (some s2) (some oursz) =
        none := by
      unfold update_sell_decision
      rw [hid, hprice, hsize]
      simp only [idTruthy, hne, decide_eq_true_eq, ne_eq, not_false_eq_true,
        decide_True, if_true]
      have hbest : |best_ask - best_ask| < PRICE_UPDATE_THRESHOLD ∨
          (best_ask ≤ best_ask ∧
            |best_ask - best_ask| ≤ cfg.price_improvement / 100 +
              PRICE_UPDATE_THRESHOLD) := by
        left
        simpa using hTH
      rw [if_pos hbest]
      simp only [Option.getD_some]
      have hsole : |oursz - oursz| < (1 : ℚ) / 100 := by simp
      simp only [hsole, decide_True]
      rw [if_neg (fun hcond => absurd hnear (not_le.mpr hcond.1))]
    rw [hdec]
  · intro oid nid best_bid s2 oursz hid hne hprice hsize hnear
    unfold update_orders_buy
    have hdec : update_buy_decision cfg st best_bid (some s2) (some oursz) =
        none := by
      unfold update_buy_decision
      rw [hid, hprice, hsize]
      simp only [idTruthy, hne, decide_eq_true_eq, ne_eq, not_false_eq_true,
        decide_True, if_true]
      have hbest : |best_bid - best_bid| < PRICE_UPDATE_THRESHOLD ∨
          (best_bid ≥ best_bid ∧
            |best_bid - best_bid| ≤ cfg.price_improvement / 100 +
              PRICE_UPDATE_THRESHOLD) := by
        left
        simpa using hTH
      rw [if_pos hbest]
      simp only [Option.getD_some]
      have hsole : |oursz - oursz| < (1 : ℚ) / 100 := by simp
      simp only [hsole, decide_True]
      rw [if_neg (fun hcond => absurd hnear (not_le.mpr hcond.1))]
    rw [hdec]

/-- Witness for C6's amended theorem: a resting sell at best-ask 0.59
(size 20) with second-best 0.60 and 1¢ improvement (target 0.59, unmoved),
and a resting buy at best-bid 0.40 (size 10) with second-best 0.39
(target 0.40, unmoved), are both left unchanged. -/
theorem resting_best_orders_left_unchanged_witness :
    update_orders_sell ⟨10, 2, 1⟩
      { current_position := 30, active_sell_order_id := some ("s1"),
        active_sell_order_price := some (59/100),
        active_sell_order_size := some 20,
        active_buy_order_id := some ("b1"),
        active_buy_order_price := some (2/5),
        active_buy_order_size := some 10 }
      (59/100) (some (3/5)) (some 20) "n1" =
      { current_position := 30, active_sell_order_id := some ("s1"),
        active_sell_order_price := some (59/100),
        active_sell_order_size := some 20,
        active_buy_order_id := some ("b1"),
        active_buy_order_price := some (2/5),
        active_buy_order_size := some 10 } ∧
    update_orders_buy ⟨10, 2, 1⟩
      { current_position := 30, active_sell_order_id := some ("s1"),
        active_sell_order_price := some (59/100),
        active_sell_order_size := some 20,
        active_buy_order_id := some ("b1"),
        active_buy_order_price := some (2/5),
        active_buy_order_size := some 10 }
      (2/5) (some (39/100)) (some 10) "n2" =
      { current_position := 30, active_sell_order_id := some ("s1"),
        active_sell_order_price := some (59/100),
        active_sell_order_size := some 20,
        active_buy_order_id := some ("b1"),
        active_buy_order_price := some (2/5),
        active_buy_order_size := some 10 } := by
  constructor
  · exact (resting_best_orders_left_unchanged ⟨10, 2, 1⟩ _).1 ("s1") "n1"
      (59/100) (3/5) 20 rfl (by decide) rfl rfl
      (by norm_num [PRICE_UPDATE_THRESHOLD])
  · exact (resting_best_orders_left_unchanged ⟨10, 2, 1⟩ _).2 ("b1") "n2"
      (2/5) (39/100) 10 rfl (by decide) rfl rfl
      (by norm_num [PRICE_UPDATE_THRESHOLD])

/-- C6 (counterexample).  A resting sell order of size 20 sits at best-ask
0.59 with the target unmoved (second-best 0.60, improvement 1¢), while the
current position is 30 > 20; the claim requires the step to top the order
up to the full inventory, but `_update_orders` leaves the state — including
the order size of 20 — unchanged. -/
theorem inventory_growth_does_not_topup_resting_sell :
    update_orders_sell ⟨10, 2, 1⟩
      { current_position := 30, active_sell_order_id := some ("s1"),
        active_sell_order_price := some (59/100),
        active_sell_order_size := some 20 }
      (59/100) (some (3/5)) (some 20) "n1" =
      { current_position := 30, active_sell_order_id := some ("s1"),
        active_sell_order_price := some (59/100),
        active_sell_order_size := some 20 } ∧
    (20 : ℚ) < 30 := by
  constructor
  · norm_num [update_orders_sell, update_sell_decision, idTruthy,
      PRICE_UPDATE_THRESHOLD, abs_le, lt_abs, abs_lt, le_abs,
      (show ("s1" : String) ≠ "" from by decide)]
  · norm_num

/-- C10.  When an order reported FILLED yields no positive filled size —
no recognized filled-size field, and no tracked original size (so neither
the remaining-size fallback nor the assume-full-fill fallback applies) —
`_check_order_status` still clears the order from tracking and increments
`total_trades`, while position, cost basis, P&L and the emitted fill
records are untouched. -/
theorem unextractable_fill_clears_order_only (st : TState)
    (f : String → Option OrderStatusD) (oid : String) (stat : OrderStatusD)
    (hid : st.active_buy_order_id = some oid) (hne : oid ≠ "")
    (hf : f oid = some stat) (hst : strUpper stat.status = "FILLED")
    (hfill : stat.filledField = none)
    (hsz : st.active_buy_order_size = none) :
    check_buy_order f st =
      { unregister_buy st with total_trades := st.total_trades + 1 } := by
  have hext : extract_filled_size stat st.active_buy_order_size = 0 := by
    unfold extract_filled_size
    rw [hfill, hsz]
  unfold check_buy_order
  rw [hid]
  simp only [if_neg hne, hf, hst, hext, eq_self_iff_true, if_true]
  norm_num [unregister_buy]

/-- Witness for C10 at a concrete state and FILLED report carrying only a
remaining-size field (unusable without an original size). -/
theorem unextractable_fill_clears_order_only_witness :
    check_buy_order
      (fun oid => if oid = "b9" then some ⟨"FILLED", none, some 3⟩ else none)
      { active_buy_order_id := some ("b9"), active_buy_order_price := some (1/2),
        current_position := 7, total_pnl := 3, total_trades := 4,
        avg_cost_basis := some (2/5) } =
      { unregister_buy
          { active_buy_order_id := some ("b9"),
            active_buy_order_price := some (1/2), current_position := 7,
            total_pnl := 3, total_trades := 4,
            avg_cost_basis := some (2/5) } with total_trades := 4 + 1 } :=
  unextractable_fill_clears_order_only
    { active_buy_order_id := some ("b9"), active_buy_order_price := some (1/2),
      current_position := 7, total_pnl := 3, total_trades := 4,
      avg_cost_basis := some (2/5) }
    (fun oid => if oid = "b9" then some ⟨"FILLED", none, some 3⟩ else none)
    "b9" ⟨"FILLED", none, some 3⟩ rfl (by decide) (by simp) (by decide)
    rfl rfl

/-- C7.  Fill reconciliation in `_check_order_status`:
(1) a filled BUY of size `s` at tracked price `p` moves the average cost
basis to `(b·q + p·s)/(q + s)` and the position to `q + s`;
(2) a filled SELL realizes `(p - b)·s` into `total_pnl`, decreases the
position by `s`, and clears the cost basis exactly when the position drops
to (or below) zero;
(3) in particular a filled buy of 10 @ 0.40 followed by a filled sell of
10 @ 0.45, from a fresh state, yields total realized P&L 0.50 and an
undefined cost basis. -/
theorem fill_reconciliation_basis_and_pnl :
    (∀ (st : TState) (f : String → Option OrderStatusD) (oid : String)
       (stat : OrderStatusD) (p b s : ℚ),
      st.active_buy_order_id = some oid → oid ≠ "" →
      st.active_buy_order_price = some p →
      f oid = some stat → strUpper stat.status = "FILLED" →
      stat.filledField = some s → 0 < s →
      st.avg_cost_basis = some b →
      (check_buy_order f st).avg_cost_basis =
        some ((b * st.current_position + p * s) /
          (st.current_position + s)) ∧
      (check_buy_order f st).current_position = st.current_position + s) ∧
    (∀ (st : TState) (f : String → Option OrderStatusD) (oid : String)
       (stat : OrderStatusD) (p b s : ℚ),
      st.active_sell_order_id = some oid → oid ≠ "" →
      st.active_sell_order_price = some p →
      f oid = some stat → strUpper stat.status = "FILLED" →
      stat.filledField = some s → 0 < s →
      st.avg_cost_basis = some b →
      (check_sell_order f st).total_pnl = st.total_pnl + (p - b) * s ∧
      (check_sell_order f st).current_position = st.current_position - s ∧
      (check_sell_order f st).avg_cost_basis =
        (if st.current_position - s ≤ 0 then none else some b)) ∧
    ((check_order_status
        (fun oid => if oid = "s1" then some ⟨"FILLED", some 10, none⟩ else none)
        (register_sell
          (check_order_status
            (fun oid => if oid = "b1" then some ⟨"FILLED", some 10, none⟩
              else none)
            (register_buy {} "b1" (2/5) 10))
          "s1" (9/20) 10)).total_pnl = 1/2 ∧
     (check_order_status
        (fun oid => if oid = "s1" then some ⟨"FILLED", some 10, none⟩ else none)
        (register_sell
          (check_order_status
            (fun oid => if oid = "b1" then some ⟨"FILLED", some 10, none⟩
              else none)
            (register_buy {} "b1" (2/5) 10))
          "s1" (9/20) 10)).avg_cost_basis = none) := by
  refine ⟨?_, ?_, ?_⟩
  · intro st f oid stat p b s hid hne hprice hf hst hfs hs hb
    have hext : extract_filled_size stat st.active_buy_order_size = s := by
      unfold extract_filled_size
      rw [hfs]
    unfold check_buy_order
    rw [hid]
    simp only [if_neg hne, hf, hst, hext, eq_self_iff_true, if_true,
      if_pos hs, hb, hprice, Option.getD_some]
    constructor <;> simp [unregister_buy]
  · intro st f oid stat p b s hid hne hprice hf hst hfs hs hb
    have hext : extract_filled_size stat st.active_sell_order_size = s := by
      unfold extract_filled_size
      rw [hfs]
    unfold check_sell_order
    rw [hid]
    simp only [if_neg hne, hf, hst, hext, eq_self_iff_true, if_true,
      if_pos hs, hb, hprice, Option.getD_some]
    refine ⟨?_, ?_, ?_⟩ <;> simp [unregister_sell]
  · have hA : check_order_status
        (fun oid => if oid = "b1" then some ⟨"FILLED", some 10, none⟩
          else none)
        (register_buy {} "b1" (2/5) 10) =
        { current_position := 10, total_trades := 1,
          avg_cost_basis := some (2/5),
          emitted := [⟨"BUY", 2/5, 10, "b1", none⟩] } := by
      norm_num [check_order_status, check_buy_order, check_sell_order,
        register_buy, unregister_buy, unregister_sell, extract_filled_size,
        (show ("b1" : String) ≠ "" from by decide),
        (show strUpper ("FILLED") = "FILLED" from by decide)]
    rw [hA]
    norm_num [check_order_status, check_buy_order, check_sell_order,
      register_sell, unregister_buy, unregister_sell, extract_filled_size,
      (show ("s1" : String) ≠ "" from by decide),
      (show strUpper ("FILLED") = "FILLED" from by decide)]

/-- Witness for C7's fill formulas: a buy fill of 10 @ 0.40 on a position
of 5 with basis 0.50, and a sell fill of 10 @ 0.45 on a position of 10 with
basis 0.40. -/
theorem fill_reconciliation_basis_and_pnl_witness :
    ((check_buy_order
        (fun o => if o = "b1" then some ⟨"FILLED", some 10, none⟩ else none)
        { active_buy_order_id := some ("b1"),
          active_buy_order_price := some (2/5),
          current_position := 5, avg_cost_basis := some (1/2) }).avg_cost_basis
      = some ((1/2 * 5 + 2/5 * 10) / (5 + 10)) ∧
     (check_buy_order
        (fun o => if o = "b1" then some ⟨"FILLED", some 10, none⟩ else none)
        { active_buy_order_id := some ("b1"),
          active_buy_order_price := some (2/5),
          current_position := 5, avg_cost_basis := some (1/2) }).current_position
      = 5 + 10) ∧
    ((check_sell_order
        (fun o => if o = "s1" then some ⟨"FILLED", some 10, none⟩ else none)
        { active_sell_order_id := some ("s1"),
          active_sell_order_price := some (9/20),
          current_position := 10, total_pnl := 0,
          avg_cost_basis := some (2/5) }).total_pnl
      = 0 + (9/20 - 2/5) * 10 ∧
     (check_sell_order
        (fun o => if o = "s1" then some ⟨"FILLED", some 10, none⟩ else none)
        { active_sell_order_id := some ("s1"),
          active_sell_order_price := some (9/20),
          current_position := 10, total_pnl := 0,
          avg_cost_basis := some (2/5) }).current_position
      = 10 - 10 ∧
     (check_sell_order
        (fun o => if o = "s1" then some ⟨"FILLED", some 10, none⟩ else none)
        { active_sell_order_id := some ("s1"),
          active_sell_order_price := some (9/20),
          current_position := 10, total_pnl := 0,
          avg_cost_basis := some (2/5) }).avg_cost_basis
      = (if (10 : ℚ) - 10 ≤ 0 then none else some (2/5))) :=
  ⟨fill_reconciliation_basis_and_pnl.1
      { active_buy_order_id := some ("b1"),
        active_buy_order_price := some (2/5),
        current_position := 5, avg_cost_basis := some (1/2) }
      (fun o => if o = "b1" then some ⟨"FILLED", some 10, none⟩ else none)
      "b1" ⟨"FILLED", some 10, none⟩ (2/5) (1/2) 10 rfl (by decide) rfl
      (by simp) (by decide) rfl (by norm_num) rfl,
   fill_reconciliation_basis_and_pnl.2.1
      { active_sell_order_id := some ("s1"),
        active_sell_order_price := some (9/20),
        current_position := 10, total_pnl := 0,
        avg_cost_basis := some (2/5) }
      (fun o => if o = "s1" then some ⟨"FILLED", some 10, none⟩ else none)
      "s1" ⟨"FILLED", some 10, none⟩ (9/20) (2/5) 10 rfl (by decide) rfl
      (by simp) (by decide) rfl (by norm_num) rfl⟩

/-! ## Idempotence of the order-status check -/

lemma check_buy_of_not_actionable (f : String → Option OrderStatusD)
    (st : TState) (h : buy_actionable f st = false) :
    check_buy_order f st = st := by
  unfold buy_actionable at h
  unfold check_buy_order
  cases hid : st.active_buy_order_id with
  | none => rfl
  | some oid =>
    rw [hid] at h
    simp only at h ⊢
    by_cases he : oid = ""
    · simp [he]
    · rw [if_neg he] at h
      simp only [if_neg he]
      cases hf : f oid with
      | none => rfl
      | some stat =>
        rw [hf] at h
        simp only [decide_eq_false_iff_not] at h
        push_neg at h
        simp [h.1, h.2.1, h.2.2]

lemma check_sell_of_not_actionable (f : String → Option OrderStatusD)
    (st : TState) (h : sell_actionable f st = false) :
    check_sell_order f st = st := by
  unfold sell_actionable at h
  unfold check_sell_order
  cases hid : st.active_sell_order_id with
  | none => rfl
  | some oid =>
    rw [hid] at h
    simp only at h ⊢
    by_cases he : oid = ""
    · simp [he]
    · rw [if_neg he] at h
      simp only [if_neg he]
      cases hf : f oid with
      | none => rfl
      | some stat =>
        rw [hf] at h
        simp only [decide_eq_false_iff_not] at h
        push_neg at h
        simp [h.1, h.2.1, h.2.2]

lemma buy_actionable_after_check_buy (f : String → Option OrderStatusD)
    (st : TState) : buy_actionable f (check_buy_order f st) = false := by
  unfold check_buy_order
  cases hid : st.active_buy_order_id with
  | none => simp [buy_actionable, hid]
  | some oid =>
    simp only
    by_cases he : oid = ""
    · simp [he, buy_actionable, hid]
    · simp only [if_neg he]
      cases hf : f oid with
      | none => simp [buy_actionable, hid, hf]
      | some stat =>
        simp only
        by_cases h1 : strUpper stat.status = "FILLED"
        · simp [h1, buy_actionable, unregister_buy]
        · by_cases h2 : strUpper stat.status = "CANCELLED" ∨
              strUpper stat.status = "REJECTED"
          · simp [h1, h2, buy_actionable, unregister_buy]
          · simp [h1, h2, buy_actionable, hid, he, hf]

lemma sell_actionable_after_check_sell (f : String → Option OrderStatusD)
    (st : TState) : sell_actionable f (check_sell_order f st) = false := by
  unfold check_sell_order
  cases hid : st.active_sell_order_id with
  | none => simp [sell_actionable, hid]
  | some oid =>
    simp only
    by_cases he : oid = ""
    · simp [he, sell_actionable, hid]
    · simp only [if_neg he]
      cases hf : f oid with
      | none => simp [sell_actionable, hid, hf]
      | some stat =>
        simp only
        by_cases h1 : strUpper stat.status = "FILLED"
        · simp [h1, sell_actionable, unregister_sell]
        · by_cases h2 : strUpper stat.status = "CANCELLED" ∨
              strUpper stat.status = "REJECTED"
          · simp [h1, h2, sell_actionable, unregister_sell]
          · simp [h1, h2, sell_actionable, hid, he, hf]

lemma check_sell_preserves_buy_id (f : String → Option OrderStatusD)
    (st : TState) :
    (check_sell_order f st).active_buy_order_id = st.active_buy_order_id := by
  unfold check_sell_order
  cases hid : st.active_sell_order_id with
  | none => rfl
  | some oid =>
    simp only
    by_cases he : oid = ""
    · simp [he]
    · simp only [if_neg he]
      cases hf : f oid with
      | none => rfl
      | some stat =>
        simp only
        by_cases h1 : strUpper stat.status = "FILLED"
        · simp only [h1, eq_self_iff_true, if_true]
          split_ifs <;> simp [unregister_sell]
        · by_cases h2 : strUpper stat.status = "CANCELLED" ∨
              strUpper stat.status = "REJECTED"
          · simp [h1, h2, unregister_sell]
          · simp [h1, h2]

lemma buy_actionable_congr (f : String → Option OrderStatusD)
    (st st' : TState)
    (h : st'.active_buy_order_id = st.active_buy_order_id) :
    buy_actionable f st' = buy_actionable f st := by
  unfold buy_actionable
  rw [h]

/-- C8.  The order-status check is idempotent: running
`_check_order_status` twice against the same exchange responses gives the
same state as running it once.  In particular, once an order's FILLED
status has been processed and the order cleared, re-processing the same
FILLED report changes neither position, cost basis, P&L nor trade count. -/
theorem check_order_status_idempotent (f : String → Option OrderStatusD)
    (st : TState) :
    check_order_status f (check_order_status f st) =
      check_order_status f st := by
  unfold check_order_status
  have h1 : buy_actionable f
      (check_sell_order f (check_buy_order f st)) = false := by
    rw [buy_actionable_congr f (check_buy_order f st)
      (check_sell_order f (check_buy_order f st))
      (check_sell_preserves_buy_id f (check_buy_order f st))]
    exact buy_actionable_after_check_buy f st
  rw [check_buy_of_not_actionable f _ h1]
  exact check_sell_of_not_actionable f _
    (sell_actionable_after_check_sell f (check_buy_order f st))

end Arbitrage
